import Mathlib

/-!
Shallow embedding of the attestation registry program
(src/onchain/programs/attestation/src/lib.rs, Anchor/Solana).

Modelling conventions:
- `Pubkey` is abstracted to `Nat` (an opaque key identity).
- A 32-byte `audit_hash` is a `List Nat` of byte values; no claim depends on
  its length or byte bounds.
- The program-derived address of an attestation account is the seed pair
  (fixed tag, audit_hash); since the tag is constant and PDA derivation is
  collision-resistant by assumption (spec section 4.1), the address is
  modelled as the `audit_hash` itself.
- The on-chain store is an association list from address to record; the
  Anchor `init` constraint's create-if-absent semantics yield the
  `DuplicateRecord` failure named by the spec (the source's own error enum
  has no such variant; it is the runtime's account-already-in-use error).
- Per the spec's control flow (section 2), the Authorization Gate check runs
  first in every mutating operation, before addressing / duplicate checks
  and the handler body.
- Machine integers: `u64` arithmetic is `Nat` with `% 2 ^ 64` where the
  counter is incremented; `u8` casts are `% 256`; `i64` timestamps are `Int`
  (no arithmetic is ever performed on them).
- Each operation returns `Except TxError (Chain × List Event)`: the list
  holds the events emitted on that success path (the handlers emit exactly
  once before returning `Ok`); a failed operation returns only the error,
  matching the all-or-nothing transaction semantics (spec section 5).
-/

namespace AuditSwarm

/-- Opaque public key identity. -/
abbrev Pubkey := Nat

/-- Opaque 32-byte content fingerprint, as a byte list. -/
abbrev AuditHash := List Nat

/-- Max wallets per attestation (10 wallets * 32 bytes = 320 bytes). -/
def MAX_WALLETS : Nat := 10

/-- Jurisdiction enumeration from the source. -/
inductive Jurisdiction
  | US | EU | BR | UK | JP | AU | CA | CH | SG
deriving DecidableEq

/-- Attestation type enumeration from the source. -/
inductive AttestationType
  | TaxCompliance | AuditComplete | ReportingComplete | QuarterlyReview | AnnualReview
deriving DecidableEq

/-- Attestation status enumeration from the source. -/
inductive AttestationStatus
  | Pending | Active | Expired | Revoked
deriving DecidableEq

/-- Program state singleton account. -/
structure ProgramState where
  authority : Pubkey
  attestation_count : Nat
  bump : Nat
deriving DecidableEq

/-- Attestation account, field for field as in the source. -/
structure Attestation where
  bump : Nat
  authority : Pubkey
  jurisdiction : Jurisdiction
  attestation_type : AttestationType
  status : AttestationStatus
  tax_year : Nat
  audit_hash : AuditHash
  issued_at : Int
  expires_at : Int
  revoked_at : Int
  num_wallets : Nat
  wallets : List Pubkey
deriving DecidableEq

/-- The program's own error enum. -/
inductive AttestationError
  | Unauthorized
  | InvalidStatusTransition
  | AttestationNotActive
  | AttestationExpired
  | InvalidJurisdiction
  | InvalidAttestationType
  | InvalidWalletCount
deriving DecidableEq

/-- Transaction-level errors: a program error, or a runtime failure
(`DuplicateRecord` is the store's create-if-absent rejection, named as in
the spec; `AccountNotFound` is the runtime's missing-account rejection). -/
inductive TxError
  | program (e : AttestationError)
  | DuplicateRecord
  | AccountNotFound
deriving DecidableEq

/-- The four event kinds, field for field as in the source. The
`attestation` field of an event is the record's derived address. -/
inductive Event
  | ProgramInitialized (authority : Pubkey)
  | AttestationCreated (attestation : AuditHash) (wallets : List Pubkey)
      (jurisdiction : Jurisdiction) (attestation_type : AttestationType)
      (tax_year : Nat) (audit_hash : AuditHash) (issued_at : Int) (expires_at : Int)
  | StatusUpdated (attestation : AuditHash)
      (old_status : AttestationStatus) (new_status : AttestationStatus)
  | AttestationRevoked (attestation : AuditHash) (wallets : List Pubkey) (revoked_at : Int)
deriving DecidableEq

/-- The transition table of the source's `is_valid_status_transition`. -/
def is_valid_status_transition (fromStatus toStatus : AttestationStatus) : Bool :=
  match fromStatus, toStatus with
  | .Pending, .Active => true
  | .Active, .Expired => true
  | .Active, .Revoked => true
  | .Pending, .Revoked => true
  | _, _ => false

/-- Lookup in the address-keyed record store. -/
def storeGet (store : List (AuditHash × Attestation)) (k : AuditHash) : Option Attestation :=
  match store with
  | [] => none
  | (k', v) :: rest => if k' = k then some v else storeGet rest k

/-- Overwrite the record stored at an existing address (no-op if absent). -/
def storeSet (store : List (AuditHash × Attestation)) (k : AuditHash) (v : Attestation) :
    List (AuditHash × Attestation) :=
  match store with
  | [] => []
  | (k', v') :: rest => if k' = k then (k, v) :: rest else (k', v') :: storeSet rest k v

/-- Global chain state: the singleton `ProgramState` account (absent before
the program is initialized) and the attestation record store. -/
structure Chain where
  state : Option ProgramState
  attestations : List (AuditHash × Attestation)
deriving DecidableEq

/-- The `initialize` entry point: creates the singleton state account with
the caller as authority and a zero counter, emitting `ProgramInitialized`.
Fails with the runtime's already-exists error if the singleton exists. -/
def initProgram (c : Chain) (signer : Pubkey) (bump : Nat) :
    Except TxError (Chain × List Event) :=
  match c.state with
  | some _ => .error .DuplicateRecord
  | none =>
      .ok ({ c with state := some { authority := signer, attestation_count := 0, bump } },
           [.ProgramInitialized signer])

/-- The `create_attestation` entry point. Authorization Gate first (constraint
`authority.key() == state.authority`), then the store's create-if-absent
check at the derived address, then the handler body's wallet-count
`require!` and field assignments. -/
def create_attestation (c : Chain) (signer : Pubkey) (clock : Int) (bump : Nat)
    (jurisdiction : Jurisdiction) (attestation_type : AttestationType)
    (tax_year : Nat) (audit_hash : AuditHash) (expires_at : Int)
    (wallets : List Pubkey) : Except TxError (Chain × List Event) :=
  match c.state with
  | none => .error .AccountNotFound
  | some st =>
      if signer = st.authority then
        if (storeGet c.attestations audit_hash).isSome then .error .DuplicateRecord
        else if wallets ≠ [] ∧ wallets.length ≤ MAX_WALLETS then
          let att : Attestation :=
            { bump, authority := signer, jurisdiction, attestation_type,
              status := .Active, tax_year, audit_hash, issued_at := clock,
              expires_at, revoked_at := 0,
              num_wallets := wallets.length % 256, wallets }
          .ok ({ state := some { st with
                   attestation_count := (st.attestation_count + 1) % 2 ^ 64 },
                 attestations := (audit_hash, att) :: c.attestations },
               [.AttestationCreated audit_hash wallets jurisdiction attestation_type
                  tax_year audit_hash clock expires_at])
        else .error (.program .InvalidWalletCount)
      else .error (.program .Unauthorized)

/-- The `update_status` entry point: Authorization Gate, record lookup at the
derived address, transition-table `require!`, then status write and the
conditional `revoked_at` stamp, emitting `StatusUpdated`. -/
def update_status (c : Chain) (signer : Pubkey) (clock : Int) (audit_hash : AuditHash)
    (new_status : AttestationStatus) : Except TxError (Chain × List Event) :=
  match c.state with
  | none => .error .AccountNotFound
  | some st =>
      if signer = st.authority then
        match storeGet c.attestations audit_hash with
        | none => .error .AccountNotFound
        | some att =>
            let old_status := att.status
            if is_valid_status_transition old_status new_status then
              let att' := { att with
                status := new_status,
                revoked_at := if new_status = .Revoked then clock else att.revoked_at }
              .ok ({ c with attestations := storeSet c.attestations audit_hash att' },
                   [.StatusUpdated audit_hash old_status new_status])
            else .error (.program .InvalidStatusTransition)
      else .error (.program .Unauthorized)

/-- The `revoke_attestation` entry point: Authorization Gate, record lookup,
the `require!` that the status is exactly `Active`, then the `Revoked`
status write and `revoked_at` stamp, emitting `AttestationRevoked`. -/
def revoke_attestation (c : Chain) (signer : Pubkey) (clock : Int)
    (audit_hash : AuditHash) : Except TxError (Chain × List Event) :=
  match c.state with
  | none => .error .AccountNotFound
  | some st =>
      if signer = st.authority then
        match storeGet c.attestations audit_hash with
        | none => .error .AccountNotFound
        | some att =>
            if att.status = .Active then
              let att' := { att with status := .Revoked, revoked_at := clock }
              .ok ({ c with attestations := storeSet c.attestations audit_hash att' },
                   [.AttestationRevoked audit_hash att.wallets clock])
            else .error (.program .AttestationNotActive)
      else .error (.program .Unauthorized)

/-- A mutating request to one of the three post-init entry points, carrying
the signer and the trusted clock reading for that call. -/
inductive Op
  | create (signer : Pubkey) (clock : Int) (bump : Nat) (jurisdiction : Jurisdiction)
      (attestation_type : AttestationType) (tax_year : Nat) (audit_hash : AuditHash)
      (expires_at : Int) (wallets : List Pubkey)
  | update (signer : Pubkey) (clock : Int) (audit_hash : AuditHash)
      (new_status : AttestationStatus)
  | revoke (signer : Pubkey) (clock : Int) (audit_hash : AuditHash)
deriving DecidableEq

/-- Dispatch an operation to its handler. -/
def applyOp (c : Chain) : Op → Except TxError (Chain × List Event)
  | .create s ck b j t y h e w => create_attestation c s ck b j t y h e w
  | .update s ck h n => update_status c s ck h n
  | .revoke s ck h => revoke_attestation c s ck h

/-- The trusted clock reading carried by an operation. -/
def Op.clock : Op → Int
  | .create _ ck _ _ _ _ _ _ _ => ck
  | .update _ ck _ _ => ck
  | .revoke _ ck _ => ck

/-- Transactional semantics: a failed operation leaves the chain unchanged. -/
def step (c : Chain) (op : Op) : Chain :=
  match applyOp c op with
  | .ok (c', _) => c'
  | .error _ => c

/-- Run a sequence of operations. -/
def runOps (c : Chain) (ops : List Op) : Chain := ops.foldl step c

/-- Chain state immediately after a successful `initialize` by `authority`. -/
def initChain (authority : Pubkey) (bump : Nat) : Chain :=
  { state := some { authority, attestation_count := 0, bump }, attestations := [] }

/-- Events emitted by an operation result (none on failure). -/
def eventsOf (r : Except TxError (Chain × List Event)) : List Event :=
  match r with
  | .ok (_, evs) => evs
  | .error _ => []

/-- Whether an operation result is a success. -/
def isOk (r : Except TxError (Chain × List Event)) : Bool :=
  match r with
  | .ok _ => true
  | .error _ => false

instance {ε α : Type} [DecidableEq ε] [DecidableEq α] : DecidableEq (Except ε α) :=
  fun a b =>
    match a, b with
    | .ok x, .ok y =>
        if h : x = y then isTrue (by rw [h])
        else isFalse (by intro hc; cases hc; exact h rfl)
    | .error x, .error y =>
        if h : x = y then isTrue (by rw [h])
        else isFalse (by intro hc; cases hc; exact h rfl)
    | .ok _, .error _ => isFalse (by intro hc; cases hc)
    | .error _, .ok _ => isFalse (by intro hc; cases hc)

/-- Record as written by a successful `create_attestation`, field
assignments as in the handler body. -/
def createdAtt (authority : Pubkey) (clock : Int) (bump : Nat)
    (jurisdiction : Jurisdiction) (attestation_type : AttestationType)
    (tax_year : Nat) (audit_hash : AuditHash) (expires_at : Int)
    (wallets : List Pubkey) : Attestation :=
  { bump, authority, jurisdiction, attestation_type, status := .Active,
    tax_year, audit_hash, issued_at := clock, expires_at, revoked_at := 0,
    num_wallets := wallets.length % 256, wallets }

/-- Record as updated by a successful `update_status` to `new_status` at
time `clock`. -/
def updatedAtt (att : Attestation) (new_status : AttestationStatus) (clock : Int) :
    Attestation :=
  { att with
    status := new_status,
    revoked_at := if new_status = .Revoked then clock else att.revoked_at }

/-- Record as updated by a successful `revoke_attestation` at time `clock`. -/
def revokedAtt (att : Attestation) (clock : Int) : Attestation :=
  { att with status := .Revoked, revoked_at := clock }

/-- Consistency of the revocation timestamp with the status (claim C9). -/
def RevokedAtConsistent (att : Attestation) : Prop :=
  att.revoked_at ≠ 0 ↔ att.status = .Revoked

/-- Every stored record has a consistent revocation timestamp. -/
def StoreRevInv (c : Chain) : Prop :=
  ∀ k att, storeGet c.attestations k = some att → RevokedAtConsistent att

/-- Consistency of the wallet counter with the wallet list (claim C10). -/
def WalletsConsistent (att : Attestation) : Prop :=
  att.num_wallets = att.wallets.length ∧
  1 ≤ att.wallets.length ∧ att.wallets.length ≤ MAX_WALLETS

/-- Every stored record has a consistent wallet counter. -/
def StoreWalletInv (c : Chain) : Prop :=
  ∀ k att, storeGet c.attestations k = some att → WalletsConsistent att

/-! Concrete fixtures used by the witness and counterexample theorems. -/

/-- An empty chain, before the program is initialized. -/
def chain0 : Chain := { state := none, attestations := [] }

/-- A sample program state with authority 1. -/
def stA : ProgramState := { authority := 1, attestation_count := 1, bump := 0 }

/-- A sample `Active` attestation stored at address [2]. -/
def attA : Attestation :=
  { bump := 0, authority := 1, jurisdiction := .US,
    attestation_type := .TaxCompliance, status := .Active, tax_year := 2024,
    audit_hash := [2], issued_at := 3, expires_at := 9, revoked_at := 0,
    num_wallets := 1, wallets := [5] }

/-- A sample chain holding `stA` and `attA`. -/
def chainA : Chain := { state := some stA, attestations := [([2], attA)] }

/-- The chain `chainA` after revoking `attA` at time `t`. -/
def chainRevokedAt (t : Int) : Chain :=
  { state := some stA,
    attestations := [([2], { attA with status := .Revoked, revoked_at := t })] }

/-- The chain `chainA` after updating `attA` to `Expired`. -/
def chainExpired : Chain :=
  { state := some stA, attestations := [([2], { attA with status := .Expired })] }

/-- The record produced by creating at address [1] at time 5 and revoking it
through `update_status` at time 6. -/
def attR : Attestation :=
  { bump := 0, authority := 1, jurisdiction := .US,
    attestation_type := .TaxCompliance, status := .Revoked, tax_year := 2024,
    audit_hash := [1], issued_at := 5, expires_at := 99, revoked_at := 6,
    num_wallets := 1, wallets := [7] }

/-- The chain `chainA` after creating a second attestation at address [7]. -/
def chainB : Chain :=
  { state := some { authority := 1, attestation_count := 2, bump := 0 },
    attestations :=
      [([7], { bump := 0, authority := 1, jurisdiction := .EU,
               attestation_type := .AuditComplete, status := .Active,
               tax_year := 2025, audit_hash := [7], issued_at := 4,
               expires_at := 9, revoked_at := 0, num_wallets := 1,
               wallets := [5] }),
       ([2], attA)] }

/-! Helper lemmas about the embedding. -/

lemma isOk_iff (r : Except TxError (Chain × List Event)) :
    isOk r = true ↔ ∃ p, r = .ok p := by
  cases r <;> simp [isOk]

lemma is_valid_status_transition_iff (a b : AttestationStatus) :
    is_valid_status_transition a b = true ↔
      ((a = .Pending ∧ b = .Active) ∨ (a = .Active ∧ b = .Expired) ∨
       (a = .Active ∧ b = .Revoked) ∨ (a = .Pending ∧ b = .Revoked)) := by
  cases a <;> cases b <;> decide

/-- Unfolding of `update_status` under an authorized signer and a present
record. -/
lemma update_status_eq (c : Chain) (st : ProgramState) (clock : Int)
    (k : AuditHash) (att : Attestation) (new_status : AttestationStatus)
    (hstate : c.state = some st) (hatt : storeGet c.attestations k = some att) :
    update_status c st.authority clock k new_status =
      if is_valid_status_transition att.status new_status then
        .ok ({ c with attestations :=
                 storeSet c.attestations k (updatedAtt att new_status clock) },
             [.StatusUpdated k att.status new_status])
      else .error (.program .InvalidStatusTransition) := by
  simp [update_status, hstate, hatt, updatedAtt]

/-- Unfolding of `revoke_attestation` under an authorized signer and a
present record. -/
lemma revoke_attestation_eq (c : Chain) (st : ProgramState) (clock : Int)
    (k : AuditHash) (att : Attestation)
    (hstate : c.state = some st) (hatt : storeGet c.attestations k = some att) :
    revoke_attestation c st.authority clock k =
      if att.status = .Active then
        .ok ({ c with attestations :=
                 storeSet c.attestations k (revokedAtt att clock) },
             [.AttestationRevoked k att.wallets clock])
      else .error (.program .AttestationNotActive) := by
  simp [revoke_attestation, hstate, hatt, revokedAtt]

lemma storeGet_storeSet_self (l : List (AuditHash × Attestation)) (k : AuditHash)
    (v : Attestation) (h : (storeGet l k).isSome) :
    storeGet (storeSet l k v) k = some v := by
  induction l with
  | nil => simp [storeGet] at h
  | cons p rest ih =>
    obtain ⟨k', v'⟩ := p
    by_cases hk : k' = k
    · subst hk
      simp [storeGet, storeSet]
    · simp [storeGet, storeSet, hk] at h ⊢
      exact ih h

lemma storeGet_storeSet_ne (l : List (AuditHash × Attestation)) (k : AuditHash)
    (v : Attestation) (k' : AuditHash) (h : k' ≠ k) :
    storeGet (storeSet l k v) k' = storeGet l k' := by
  induction l with
  | nil => simp [storeSet]
  | cons p rest ih =>
    obtain ⟨k0, v0⟩ := p
    by_cases hk : k0 = k
    · subst hk
      simp [storeGet, storeSet, Ne.symm h]
    · simp only [storeSet, if_neg hk, storeGet]
      by_cases hk' : k0 = k'
      · simp [hk']
      · simp [hk', ih]

/-- Unfolding of `create_attestation` under an authorized signer and a fresh
address. -/
lemma create_attestation_eq (c : Chain) (st : ProgramState) (clock : Int)
    (bump : Nat) (j : Jurisdiction) (t : AttestationType) (y : Nat)
    (h : AuditHash) (e : Int) (w : List Pubkey)
    (hstate : c.state = some st) (hfree : storeGet c.attestations h = none) :
    create_attestation c st.authority clock bump j t y h e w =
      if w ≠ [] ∧ w.length ≤ MAX_WALLETS then
        .ok ({ state := some ({ st with
                 attestation_count := (st.attestation_count + 1) % 2 ^ 64 }),
               attestations :=
                 (h, createdAtt st.authority clock bump j t y h e w) :: c.attestations },
             [.AttestationCreated h w j t y h clock e])
      else .error (.program .InvalidWalletCount) := by
  simp [create_attestation, hstate, hfree, createdAtt]

/-- Inversion for a successful `create_attestation`. -/
lemma create_attestation_ok_inv (c : Chain) (s : Pubkey) (clock : Int)
    (bump : Nat) (j : Jurisdiction) (t : AttestationType) (y : Nat)
    (h : AuditHash) (e : Int) (w : List Pubkey) (c1 : Chain) (evs : List Event)
    (hok : create_attestation c s clock bump j t y h e w = .ok (c1, evs)) :
    ∃ st, c.state = some st ∧ s = st.authority ∧
      storeGet c.attestations h = none ∧ w ≠ [] ∧ w.length ≤ MAX_WALLETS ∧
      c1 = { state := some ({ st with
               attestation_count := (st.attestation_count + 1) % 2 ^ 64 }),
             attestations :=
               (h, createdAtt s clock bump j t y h e w) :: c.attestations } ∧
      evs = [.AttestationCreated h w j t y h clock e] := by
  unfold create_attestation at hok
  cases hc : c.state with
  | none => rw [hc] at hok; cases hok
  | some st =>
    rw [hc] at hok
    simp only [] at hok
    by_cases hs : s = st.authority
    · rw [if_pos hs] at hok
      by_cases hdup : (storeGet c.attestations h).isSome
      · rw [if_pos hdup] at hok; cases hok
      · rw [if_neg hdup] at hok
        by_cases hw : w ≠ [] ∧ w.length ≤ MAX_WALLETS
        · rw [if_pos hw] at hok
          refine ⟨st, rfl, hs, ?_, hw.1, hw.2, ?_, ?_⟩
          · cases hg : storeGet c.attestations h
            · rfl
            · rw [hg] at hdup; simp at hdup
          · cases hok
            simp [createdAtt]
          · cases hok
            rfl
        · rw [if_neg hw] at hok; cases hok
    · rw [if_neg hs] at hok; cases hok

/-- Inversion for a successful `update_status`. -/
lemma update_status_ok_inv (c : Chain) (s : Pubkey) (clock : Int)
    (k : AuditHash) (n : AttestationStatus) (c1 : Chain) (evs : List Event)
    (hok : update_status c s clock k n = .ok (c1, evs)) :
    ∃ st att, c.state = some st ∧ s = st.authority ∧
      storeGet c.attestations k = some att ∧
      is_valid_status_transition att.status n = true ∧
      c1 = { c with attestations := storeSet c.attestations k (updatedAtt att n clock) } ∧
      evs = [.StatusUpdated k att.status n] := by
  unfold update_status at hok
  cases hc : c.state with
  | none => rw [hc] at hok; cases hok
  | some st =>
    rw [hc] at hok
    simp only [] at hok
    by_cases hs : s = st.authority
    · rw [if_pos hs] at hok
      cases hg : storeGet c.attestations k with
      | none => rw [hg] at hok; cases hok
      | some att =>
        rw [hg] at hok
        simp only [] at hok
        by_cases hv : is_valid_status_transition att.status n = true
        · rw [if_pos hv] at hok
          cases hok
          exact ⟨st, att, rfl, hs, rfl, hv, by simp [updatedAtt], rfl⟩
        · rw [if_neg hv] at hok; cases hok
    · rw [if_neg hs] at hok; cases hok

/-- Inversion for a successful `revoke_attestation`. -/
lemma revoke_attestation_ok_inv (c : Chain) (s : Pubkey) (clock : Int)
    (k : AuditHash) (c1 : Chain) (evs : List Event)
    (hok : revoke_attestation c s clock k = .ok (c1, evs)) :
    ∃ st att, c.state = some st ∧ s = st.authority ∧
      storeGet c.attestations k = some att ∧ att.status = .Active ∧
      c1 = { c with attestations := storeSet c.attestations k (revokedAtt att clock) } ∧
      evs = [.AttestationRevoked k att.wallets clock] := by
  unfold revoke_attestation at hok
  cases hc : c.state with
  | none => rw [hc] at hok; cases hok
  | some st =>
    rw [hc] at hok
    simp only [] at hok
    by_cases hs : s = st.authority
    · rw [if_pos hs] at hok
      cases hg : storeGet c.attestations k with
      | none => rw [hg] at hok; cases hok
      | some att =>
        rw [hg] at hok
        simp only [] at hok
        by_cases ha : att.status = .Active
        · rw [if_pos ha] at hok
          cases hok
          exact ⟨st, att, rfl, hs, rfl, ha, by simp [revokedAtt], rfl⟩
        · rw [if_neg ha] at hok; cases hok
    · rw [if_neg hs] at hok; cases hok

/-! Claim theorems. -/

/-- C1. For every pair (from, to) of attestation statuses, `update_status`
on a record whose current status is `from` (with an authorized signer)
succeeds if and only if (from, to) is one of (Pending, Active),
(Active, Expired), (Active, Revoked), (Pending, Revoked); for each of the
other 12 pairs, including self-transitions and any transition out of
`Expired` or `Revoked`, it fails with `InvalidStatusTransition`. -/
theorem update_status_transition_table (c : Chain) (st : ProgramState)
    (clock : Int) (k : AuditHash) (att : Attestation)
    (new_status : AttestationStatus)
    (hstate : c.state = some st) (hatt : storeGet c.attestations k = some att) :
    (isOk (update_status c st.authority clock k new_status) = true ↔
      ((att.status = .Pending ∧ new_status = .Active) ∨
       (att.status = .Active ∧ new_status = .Expired) ∨
       (att.status = .Active ∧ new_status = .Revoked) ∨
       (att.status = .Pending ∧ new_status = .Revoked))) ∧
    (¬ ((att.status = .Pending ∧ new_status = .Active) ∨
        (att.status = .Active ∧ new_status = .Expired) ∨
        (att.status = .Active ∧ new_status = .Revoked) ∨
        (att.status = .Pending ∧ new_status = .Revoked)) →
      update_status c st.authority clock k new_status =
        .error (.program .InvalidStatusTransition)) := by
  rw [update_status_eq c st clock k att new_status hstate hatt]
  rw [← is_valid_status_transition_iff]
  by_cases hv : is_valid_status_transition att.status new_status = true
  · simp [hv, isOk]
  · simp [hv, isOk]

/-- C1 witness: on a concrete chain with an `Active` record, the
Active→Expired transition is among the allowed pairs and succeeds. -/
theorem update_status_transition_table_witness :
    chainA.state = some stA ∧
    storeGet chainA.attestations [2] = some attA ∧
    (isOk (update_status chainA stA.authority 4 [2] .Expired) = true ↔
      ((attA.status = .Pending ∧ (.Expired : AttestationStatus) = .Active) ∨
       (attA.status = .Active ∧ (.Expired : AttestationStatus) = .Expired) ∨
       (attA.status = .Active ∧ (.Expired : AttestationStatus) = .Revoked) ∨
       (attA.status = .Pending ∧ (.Expired : AttestationStatus) = .Revoked))) :=
  ⟨by decide, by decide,
    (update_status_transition_table chainA stA 4 [2] attA .Expired (by decide) (by decide)).1⟩

/-- C2. `revoke_attestation` (with an authorized signer) succeeds if and only
if the target record's current status is exactly `Active`; on any other
status it fails with `AttestationNotActive` — even though the generic
transition table would permit Pending → Revoked (last conjunct). -/
theorem revoke_attestation_active_only (c : Chain) (st : ProgramState) (clock : Int)
    (k : AuditHash) (att : Attestation)
    (hstate : c.state = some st) (hatt : storeGet c.attestations k = some att) :
    (isOk (revoke_attestation c st.authority clock k) = true ↔ att.status = .Active) ∧
    (att.status ≠ .Active →
      revoke_attestation c st.authority clock k =
        .error (.program .AttestationNotActive)) ∧
    is_valid_status_transition .Pending .Revoked = true := by
  rw [revoke_attestation_eq c st clock k att hstate hatt]
  refine ⟨?_, ?_, rfl⟩
  · by_cases h : att.status = .Active <;> simp [h, isOk]
  · intro h
    simp [h]

/-- C2 witness: on a concrete chain with an `Active` record, revocation
succeeds exactly because the status is `Active`. -/
theorem revoke_attestation_active_only_witness :
    chainA.state = some stA ∧
    storeGet chainA.attestations [2] = some attA ∧
    (isOk (revoke_attestation chainA stA.authority 4 [2]) = true ↔
      attA.status = .Active) :=
  ⟨by decide, by decide,
    (revoke_attestation_active_only chainA stA 4 [2] attA (by decide) (by decide)).1⟩

/-- C3. Any mutating call whose signer differs from the current
`ProgramState.authority` fails with `Unauthorized`, leaves the chain (both
`ProgramState` and every `Attestation`) unchanged, and emits no event, for
each of `create_attestation`, `update_status`, `revoke_attestation`. -/
theorem unauthorized_mutations_rejected (c : Chain) (st : ProgramState)
    (signer : Pubkey) (hstate : c.state = some st) (hsig : signer ≠ st.authority) :
    (∀ clock bump j t y h e w,
      create_attestation c signer clock bump j t y h e w =
        .error (.program .Unauthorized) ∧
      step c (.create signer clock bump j t y h e w) = c ∧
      eventsOf (applyOp c (.create signer clock bump j t y h e w)) = []) ∧
    (∀ clock k n,
      update_status c signer clock k n = .error (.program .Unauthorized) ∧
      step c (.update signer clock k n) = c ∧
      eventsOf (applyOp c (.update signer clock k n)) = []) ∧
    (∀ clock k,
      revoke_attestation c signer clock k = .error (.program .Unauthorized) ∧
      step c (.revoke signer clock k) = c ∧
      eventsOf (applyOp c (.revoke signer clock k)) = []) := by
  refine ⟨fun clock bump j t y h e w => ?_, fun clock k n => ?_, fun clock k => ?_⟩
  · have herr : create_attestation c signer clock bump j t y h e w =
        .error (.program .Unauthorized) := by
      simp [create_attestation, hstate, hsig]
    exact ⟨herr, by simp [step, applyOp, herr], by simp [eventsOf, applyOp, herr]⟩
  · have herr : update_status c signer clock k n = .error (.program .Unauthorized) := by
      simp [update_status, hstate, hsig]
    exact ⟨herr, by simp [step, applyOp, herr], by simp [eventsOf, applyOp, herr]⟩
  · have herr : revoke_attestation c signer clock k = .error (.program .Unauthorized) := by
      simp [revoke_attestation, hstate, hsig]
    exact ⟨herr, by simp [step, applyOp, herr], by simp [eventsOf, applyOp, herr]⟩

/-- C3 witness: signer 2 is not the authority (1); a concrete create fails
with `Unauthorized` and the chain is untouched. -/
theorem unauthorized_mutations_rejected_witness :
    chainA.state = some stA ∧ (2 : Pubkey) ≠ stA.authority ∧
    create_attestation chainA 2 4 0 .US .TaxCompliance 2024 [7] 9 [5] =
      .error (.program .Unauthorized) ∧
    step chainA (.create 2 4 0 .US .TaxCompliance 2024 [7] 9 [5]) = chainA :=
  ⟨by decide, by decide,
    ((unauthorized_mutations_rejected chainA stA 2 (by decide) (by decide)).1
      4 0 .US .TaxCompliance 2024 [7] 9 [5]).1,
    ((unauthorized_mutations_rejected chainA stA 2 (by decide) (by decide)).1
      4 0 .US .TaxCompliance 2024 [7] 9 [5]).2.1⟩

/-- C4. With valid inputs (1 ≤ wallet count ≤ 10, authorized signer, fresh
address), `create_attestation` succeeds; afterwards any second
`create_attestation` with the same `audit_hash` — every other field free to
differ — fails with `DuplicateRecord`, because the storage address is
derived solely from the fixed tag and the `audit_hash`. -/
theorem create_attestation_unique_per_hash (c : Chain) (st : ProgramState)
    (clock : Int) (bump : Nat) (j : Jurisdiction) (t : AttestationType) (y : Nat)
    (h : AuditHash) (e : Int) (w : List Pubkey)
    (hstate : c.state = some st) (hfree : storeGet c.attestations h = none)
    (hw1 : w ≠ []) (hw2 : w.length ≤ MAX_WALLETS) :
    isOk (create_attestation c st.authority clock bump j t y h e w) = true ∧
    (∀ c1 evs, create_attestation c st.authority clock bump j t y h e w = .ok (c1, evs) →
      ∀ (signer2 : Pubkey) (clock2 : Int) (bump2 : Nat) (j2 : Jurisdiction)
        (t2 : AttestationType) (y2 : Nat) (e2 : Int) (w2 : List Pubkey),
        signer2 = st.authority →
        create_attestation c1 signer2 clock2 bump2 j2 t2 y2 h e2 w2 =
          .error .DuplicateRecord) := by
  rw [create_attestation_eq c st clock bump j t y h e w hstate hfree, if_pos ⟨hw1, hw2⟩]
  refine ⟨rfl, ?_⟩
  intro c1 evs hok s2 ck2 b2 j2 t2 y2 e2 w2 hs2
  subst hs2
  cases hok
  simp [create_attestation, storeGet]

/-- C4 witness: creating at fresh address [7] succeeds; re-creating at the
same `audit_hash` on the resulting chain `chainB`, with every other field
different, fails with `DuplicateRecord`. -/
theorem create_attestation_unique_per_hash_witness :
    chainA.state = some stA ∧ storeGet chainA.attestations [7] = none ∧
    ([5] : List Pubkey) ≠ [] ∧ ([5] : List Pubkey).length ≤ MAX_WALLETS ∧
    isOk (create_attestation chainA stA.authority 4 0 .EU .AuditComplete 2025 [7] 9 [5]) =
      true ∧
    create_attestation chainB 1 6 1 .US .TaxCompliance 2024 [7] 8 [9] =
      .error .DuplicateRecord :=
  ⟨by decide, by decide, by decide, by decide,
    (create_attestation_unique_per_hash chainA stA 4 0 .EU .AuditComplete 2025 [7] 9 [5]
      (by decide) (by decide) (by decide) (by decide)).1,
    (create_attestation_unique_per_hash chainA stA 4 0 .EU .AuditComplete 2025 [7] 9 [5]
      (by decide) (by decide) (by decide) (by decide)).2 chainB
      [.AttestationCreated [7] [5] .EU .AuditComplete 2025 [7] 4 9]
      (by decide) 1 6 1 .US .TaxCompliance 2024 8 [9] (by decide)⟩

/-- C5. With an authorized signer and a fresh address, a wallet list of
length 0 or more than 10 makes `create_attestation` fail with
`InvalidWalletCount`, while a length between 1 and 10 passes the check and
the call succeeds. -/
theorem create_attestation_wallet_count (c : Chain) (st : ProgramState)
    (clock : Int) (bump : Nat) (j : Jurisdiction) (t : AttestationType) (y : Nat)
    (h : AuditHash) (e : Int) (w : List Pubkey)
    (hstate : c.state = some st) (hfree : storeGet c.attestations h = none) :
    ((w = [] ∨ MAX_WALLETS < w.length) →
      create_attestation c st.authority clock bump j t y h e w =
        .error (.program .InvalidWalletCount)) ∧
    ((w ≠ [] ∧ w.length ≤ MAX_WALLETS) →
      isOk (create_attestation c st.authority clock bump j t y h e w) = true) := by
  rw [create_attestation_eq c st clock bump j t y h e w hstate hfree]
  constructor
  · intro hbad
    have hneg : ¬(w ≠ [] ∧ w.length ≤ MAX_WALLETS) := by
      rcases hbad with h1 | h1
      · simp [h1]
      · intro hcon
        omega
    rw [if_neg hneg]
  · intro hgood
    rw [if_pos hgood]
    rfl

/-- C5 witness: an empty wallet list is rejected with `InvalidWalletCount`,
and a one-wallet list passes. -/
theorem create_attestation_wallet_count_witness :
    chainA.state = some stA ∧ storeGet chainA.attestations [7] = none ∧
    create_attestation chainA stA.authority 4 0 .US .TaxCompliance 2024 [7] 9 [] =
      .error (.program .InvalidWalletCount) ∧
    isOk (create_attestation chainA stA.authority 4 0 .US .TaxCompliance 2024 [7] 9 [5]) =
      true :=
  ⟨by decide, by decide,
    (create_attestation_wallet_count chainA stA 4 0 .US .TaxCompliance 2024 [7] 9 []
      (by decide) (by decide)).1 (Or.inl rfl),
    (create_attestation_wallet_count chainA stA 4 0 .US .TaxCompliance 2024 [7] 9 [5]
      (by decide) (by decide)).2 ⟨by decide, by decide⟩⟩

/-- C6. A successful `create_attestation` stores the new record with status
`Active` (never `Pending`), `revoked_at = 0`, `issued_at` equal to the clock
reading of the call, and all caller-supplied fields verbatim; it increments
`attestation_count` by exactly one (absent `u64` wrap); and no operation
ever decrements `attestation_count`. -/
theorem create_attestation_postconditions (c : Chain) (st : ProgramState)
    (clock : Int) (bump : Nat) (j : Jurisdiction) (t : AttestationType) (y : Nat)
    (h : AuditHash) (e : Int) (w : List Pubkey) (c1 : Chain) (evs : List Event)
    (hstate : c.state = some st)
    (hok : create_attestation c st.authority clock bump j t y h e w = .ok (c1, evs))
    (hcount : st.attestation_count + 1 < 2 ^ 64) :
    (∃ att, storeGet c1.attestations h = some att ∧
      att.status = .Active ∧ att.revoked_at = 0 ∧ att.issued_at = clock ∧
      att.authority = st.authority ∧ att.jurisdiction = j ∧
      att.attestation_type = t ∧ att.tax_year = y ∧ att.audit_hash = h ∧
      att.expires_at = e ∧ att.wallets = w) ∧
    c1.state = some ({ st with attestation_count := st.attestation_count + 1 }) ∧
    (∀ (c2 : Chain) (op : Op) (st2 st3 : ProgramState), c2.state = some st2 →
      st2.attestation_count + 1 < 2 ^ 64 → (step c2 op).state = some st3 →
      st2.attestation_count ≤ st3.attestation_count) := by
  obtain ⟨st', hst', hs', hfree, hw1, hw2, hc1, hevs⟩ :=
    create_attestation_ok_inv c st.authority clock bump j t y h e w c1 evs hok
  rw [hstate] at hst'
  cases hst'
  subst hc1
  refine ⟨⟨createdAtt st.authority clock bump j t y h e w, by simp [storeGet],
    rfl, rfl, rfl, rfl, rfl, rfl, rfl, rfl, rfl, rfl⟩, ?_, ?_⟩
  · have hmod : (st.attestation_count + 1) % 2 ^ 64 = st.attestation_count + 1 :=
      Nat.mod_eq_of_lt hcount
    rw [hmod]
  · intro c2 op st2 st3 h2 hlt h3
    unfold step at h3
    cases happ : applyOp c2 op with
    | error err =>
        rw [happ] at h3
        rw [h2] at h3
        cases h3
        exact Nat.le_refl _
    | ok p =>
        obtain ⟨c', evs'⟩ := p
        rw [happ] at h3
        cases op with
        | create s ck b j' t' y' h' e' w' =>
            obtain ⟨stx, hstx, _, _, _, _, hcx, _⟩ :=
              create_attestation_ok_inv c2 s ck b j' t' y' h' e' w' c' evs' happ
            rw [h2] at hstx
            cases hstx
            subst hcx
            simp only [] at h3
            cases h3
            rw [Nat.mod_eq_of_lt hlt]
            exact Nat.le_succ _
        | update s ck k n =>
            obtain ⟨stx, attx, hstx, _, _, _, hcx, _⟩ :=
              update_status_ok_inv c2 s ck k n c' evs' happ
            subst hcx
            simp only [] at h3
            rw [h2] at h3
            cases h3
            exact Nat.le_refl _
        | revoke s ck k =>
            obtain ⟨stx, attx, hstx, _, _, _, hcx, _⟩ :=
              revoke_attestation_ok_inv c2 s ck k c' evs' happ
            subst hcx
            simp only [] at h3
            rw [h2] at h3
            cases h3
            exact Nat.le_refl _

/-- C6 witness: a concrete creation stores an `Active` record with the
call's clock as `issued_at` and bumps the counter from 1 to 2. -/
theorem create_attestation_postconditions_witness :
    chainA.state = some stA ∧
    create_attestation chainA stA.authority 4 0 .EU .AuditComplete 2025 [7] 9 [5] =
      .ok (chainB, [.AttestationCreated [7] [5] .EU .AuditComplete 2025 [7] 4 9]) ∧
    stA.attestation_count + 1 < 2 ^ 64 ∧
    chainB.state = some ({ stA with attestation_count := stA.attestation_count + 1 }) :=
  ⟨by decide, by decide, by decide,
    (create_attestation_postconditions chainA stA 4 0 .EU .AuditComplete 2025 [7] 9 [5]
      chainB [.AttestationCreated [7] [5] .EU .AuditComplete 2025 [7] 4 9]
      (by decide) (by decide) (by decide)).2.1⟩

/-- C7. After creation, `update_status` and `revoke_attestation` modify only
`status` and `revoked_at`: every other field of the target record, every
other stored record, and the `ProgramState` are unchanged; `revoked_at` is
stamped with the call's clock exactly when a transition enters `Revoked`
(via either path) and is untouched by every other transition. -/
theorem post_creation_frame :
    (∀ (c : Chain) (s : Pubkey) (ck : Int) (k : AuditHash) (n : AttestationStatus)
       (c1 : Chain) (evs : List Event) (att : Attestation),
      update_status c s ck k n = .ok (c1, evs) →
      storeGet c.attestations k = some att →
      c1.state = c.state ∧
      (∀ k', k' ≠ k → storeGet c1.attestations k' = storeGet c.attestations k') ∧
      storeGet c1.attestations k = some (updatedAtt att n ck) ∧
      (updatedAtt att n ck).bump = att.bump ∧
      (updatedAtt att n ck).authority = att.authority ∧
      (updatedAtt att n ck).jurisdiction = att.jurisdiction ∧
      (updatedAtt att n ck).attestation_type = att.attestation_type ∧
      (updatedAtt att n ck).tax_year = att.tax_year ∧
      (updatedAtt att n ck).audit_hash = att.audit_hash ∧
      (updatedAtt att n ck).issued_at = att.issued_at ∧
      (updatedAtt att n ck).expires_at = att.expires_at ∧
      (updatedAtt att n ck).num_wallets = att.num_wallets ∧
      (updatedAtt att n ck).wallets = att.wallets ∧
      (updatedAtt att n ck).status = n ∧
      (n = .Revoked → (updatedAtt att n ck).revoked_at = ck) ∧
      (n ≠ .Revoked → (updatedAtt att n ck).revoked_at = att.revoked_at)) ∧
    (∀ (c : Chain) (s : Pubkey) (ck : Int) (k : AuditHash) (c1 : Chain)
       (evs : List Event) (att : Attestation),
      revoke_attestation c s ck k = .ok (c1, evs) →
      storeGet c.attestations k = some att →
      c1.state = c.state ∧
      (∀ k', k' ≠ k → storeGet c1.attestations k' = storeGet c.attestations k') ∧
      storeGet c1.attestations k = some (revokedAtt att ck) ∧
      (revokedAtt att ck).bump = att.bump ∧
      (revokedAtt att ck).authority = att.authority ∧
      (revokedAtt att ck).jurisdiction = att.jurisdiction ∧
      (revokedAtt att ck).attestation_type = att.attestation_type ∧
      (revokedAtt att ck).tax_year = att.tax_year ∧
      (revokedAtt att ck).audit_hash = att.audit_hash ∧
      (revokedAtt att ck).issued_at = att.issued_at ∧
      (revokedAtt att ck).expires_at = att.expires_at ∧
      (revokedAtt att ck).num_wallets = att.num_wallets ∧
      (revokedAtt att ck).wallets = att.wallets ∧
      (revokedAtt att ck).status = .Revoked ∧
      (revokedAtt att ck).revoked_at = ck) := by
  constructor
  · intro c s ck k n c1 evs att hok hget
    obtain ⟨st, att0, hst, hs, hget0, hval, hc1, hevs⟩ :=
      update_status_ok_inv c s ck k n c1 evs hok
    rw [hget] at hget0
    cases hget0
    subst hc1
    refine ⟨rfl, fun k' hk' => storeGet_storeSet_ne _ _ _ _ hk', ?_,
      rfl, rfl, rfl, rfl, rfl, rfl, rfl, rfl, rfl, rfl, rfl, ?_, ?_⟩
    · exact storeGet_storeSet_self _ _ _ (by simp [hget])
    · intro hn
      simp [updatedAtt, hn]
    · intro hn
      simp [updatedAtt, hn]
  · intro c s ck k c1 evs att hok hget
    obtain ⟨st, att0, hst, hs, hget0, hact, hc1, hevs⟩ :=
      revoke_attestation_ok_inv c s ck k c1 evs hok
    rw [hget] at hget0
    cases hget0
    subst hc1
    refine ⟨rfl, fun k' hk' => storeGet_storeSet_ne _ _ _ _ hk', ?_,
      rfl, rfl, rfl, rfl, rfl, rfl, rfl, rfl, rfl, rfl, rfl, rfl⟩
    exact storeGet_storeSet_self _ _ _ (by simp [hget])

/-- C7 witness: concretely, updating `attA` to `Expired` keeps the program
state and rewrites only the record's status; `revoked_at` is untouched. -/
theorem post_creation_frame_witness :
    update_status chainA 1 4 [2] .Expired =
      .ok (chainExpired, [.StatusUpdated [2] .Active .Expired]) ∧
    storeGet chainA.attestations [2] = some attA ∧
    chainExpired.state = chainA.state ∧
    storeGet chainExpired.attestations [2] = some (updatedAtt attA .Expired 4) :=
  ⟨by decide, by decide,
    (post_creation_frame.1 chainA 1 4 [2] .Expired chainExpired
      [.StatusUpdated [2] .Active .Expired] attA (by decide) (by decide)).1,
    (post_creation_frame.1 chainA 1 4 [2] .Expired chainExpired
      [.StatusUpdated [2] .Active .Expired] attA (by decide) (by decide)).2.2.1⟩

lemma step_preserves_rev_inv (c : Chain) (op : Op) (hck : 0 < op.clock)
    (hinv : StoreRevInv c) : StoreRevInv (step c op) := by
  unfold step
  cases happ : applyOp c op with
  | error err => exact hinv
  | ok p =>
    obtain ⟨c', evs⟩ := p
    cases op with
    | create s ck b j t y h e w =>
        obtain ⟨st, hst, hs, hfree, hw1, hw2, hc1, hevs⟩ :=
          create_attestation_ok_inv c s ck b j t y h e w c' evs happ
        subst hc1
        intro k att hget
        by_cases hk : h = k
        · subst hk
          simp [storeGet] at hget
          subst hget
          simp [RevokedAtConsistent, createdAtt]
        · simp [storeGet, hk] at hget
          exact hinv k att hget
    | update s ck k0 n =>
        obtain ⟨st, att0, hst, hs, hget0, hval, hc1, hevs⟩ :=
          update_status_ok_inv c s ck k0 n c' evs happ
        subst hc1
        have hckne : ck ≠ 0 := by
          have h0 : (0 : Int) < ck := hck
          omega
        intro k att hget
        by_cases hk : k = k0
        · subst hk
          rw [storeGet_storeSet_self _ _ _ (by simp [hget0])] at hget
          cases hget
          have hold := hinv k att0 hget0
          rcases (is_valid_status_transition_iff att0.status n).mp hval with
            ⟨h1, h2⟩ | ⟨h1, h2⟩ | ⟨h1, h2⟩ | ⟨h1, h2⟩
          · subst h2
            simp [RevokedAtConsistent, h1] at hold
            simpa [RevokedAtConsistent, updatedAtt] using hold
          · subst h2
            simp [RevokedAtConsistent, h1] at hold
            simpa [RevokedAtConsistent, updatedAtt] using hold
          · subst h2
            simp [RevokedAtConsistent, updatedAtt, hckne]
          · subst h2
            simp [RevokedAtConsistent, updatedAtt, hckne]
        · rw [storeGet_storeSet_ne _ _ _ _ hk] at hget
          exact hinv k att hget
    | revoke s ck k0 =>
        obtain ⟨st, att0, hst, hs, hget0, hact, hc1, hevs⟩ :=
          revoke_attestation_ok_inv c s ck k0 c' evs happ
        subst hc1
        have hckne : ck ≠ 0 := by
          have h0 : (0 : Int) < ck := hck
          omega
        intro k att hget
        by_cases hk : k = k0
        · subst hk
          rw [storeGet_storeSet_self _ _ _ (by simp [hget0])] at hget
          cases hget
          simp [RevokedAtConsistent, revokedAtt, hckne]
        · rw [storeGet_storeSet_ne _ _ _ _ hk] at hget
          exact hinv k att hget

lemma runOps_preserves_rev_inv (ops : List Op) (c : Chain) (hinv : StoreRevInv c)
    (hck : ∀ op ∈ ops, 0 < op.clock) : StoreRevInv (runOps c ops) := by
  induction ops generalizing c with
  | nil => exact hinv
  | cons op rest ih =>
      exact ih (step c op)
        (step_preserves_rev_inv c op (hck op (by simp)) hinv)
        (fun o ho => hck o (by simp [ho]))

/-- C9. On every chain reachable from an initialized deployment by any
sequence of operations whose (trusted, positive) clock readings are
nonzero, every stored record satisfies: `revoked_at` is nonzero if and only
if its status is `Revoked`. -/
theorem revoked_at_iff_revoked (authority bump : Nat) (ops : List Op)
    (hck : ∀ op ∈ ops, 0 < op.clock) (k : AuditHash) (att : Attestation)
    (hget : storeGet (runOps (initChain authority bump) ops).attestations k = some att) :
    att.revoked_at ≠ 0 ↔ att.status = .Revoked := by
  have hinv : StoreRevInv (runOps (initChain authority bump) ops) :=
    runOps_preserves_rev_inv ops (initChain authority bump)
      (fun k0 att0 h0 => by simp [initChain, storeGet] at h0) hck
  exact hinv k att hget

/-- C9 witness: create at time 5, revoke through `update_status` at time 6;
the stored record has `revoked_at = 6 ≠ 0` and status `Revoked`. -/
theorem revoked_at_iff_revoked_witness :
    (∀ op ∈ ([.create 1 5 0 .US .TaxCompliance 2024 [1] 99 [7],
              .update 1 6 [1] .Revoked] : List Op), 0 < op.clock) ∧
    storeGet (runOps (initChain 1 0)
        [.create 1 5 0 .US .TaxCompliance 2024 [1] 99 [7],
         .update 1 6 [1] .Revoked]).attestations [1] = some attR ∧
    (attR.revoked_at ≠ 0 ↔ attR.status = .Revoked) :=
  ⟨by decide, by decide,
    revoked_at_iff_revoked 1 0
      [.create 1 5 0 .US .TaxCompliance 2024 [1] 99 [7],
       .update 1 6 [1] .Revoked] (by decide) [1] attR (by decide)⟩

lemma step_preserves_wallet_inv (c : Chain) (op : Op)
    (hinv : StoreWalletInv c) : StoreWalletInv (step c op) := by
  unfold step
  cases happ : applyOp c op with
  | error err => exact hinv
  | ok p =>
    obtain ⟨c', evs⟩ := p
    cases op with
    | create s ck b j t y h e w =>
        obtain ⟨st, hst, hs, hfree, hw1, hw2, hc1, hevs⟩ :=
          create_attestation_ok_inv c s ck b j t y h e w c' evs happ
        subst hc1
        intro k att hget
        by_cases hk : h = k
        · subst hk
          simp [storeGet] at hget
          subst hget
          have hlen : 1 ≤ w.length := List.length_pos.mpr hw1
          have hmod : w.length % 256 = w.length :=
            Nat.mod_eq_of_lt (lt_of_le_of_lt hw2 (by norm_num [MAX_WALLETS]))
          exact ⟨by simp [createdAtt, hmod], by simpa [createdAtt] using hlen,
            by simpa [createdAtt] using hw2⟩
        · simp [storeGet, hk] at hget
          exact hinv k att hget
    | update s ck k0 n =>
        obtain ⟨st, att0, hst, hs, hget0, hval, hc1, hevs⟩ :=
          update_status_ok_inv c s ck k0 n c' evs happ
        subst hc1
        intro k att hget
        by_cases hk : k = k0
        · subst hk
          rw [storeGet_storeSet_self _ _ _ (by simp [hget0])] at hget
          cases hget
          have hold := hinv k att0 hget0
          simpa [WalletsConsistent, updatedAtt] using hold
        · rw [storeGet_storeSet_ne _ _ _ _ hk] at hget
          exact hinv k att hget
    | revoke s ck k0 =>
        obtain ⟨st, att0, hst, hs, hget0, hact, hc1, hevs⟩ :=
          revoke_attestation_ok_inv c s ck k0 c' evs happ
        subst hc1
        intro k att hget
        by_cases hk : k = k0
        · subst hk
          rw [storeGet_storeSet_self _ _ _ (by simp [hget0])] at hget
          cases hget
          have hold := hinv k att0 hget0
          simpa [WalletsConsistent, revokedAtt] using hold
        · rw [storeGet_storeSet_ne _ _ _ _ hk] at hget
          exact hinv k att hget

lemma runOps_preserves_wallet_inv (ops : List Op) (c : Chain)
    (hinv : StoreWalletInv c) : StoreWalletInv (runOps c ops) := by
  induction ops generalizing c with
  | nil => exact hinv
  | cons op rest ih => exact ih (step c op) (step_preserves_wallet_inv c op hinv)

/-- C10. On every chain reachable from an initialized deployment, every
stored record satisfies `num_wallets = wallets.length`, with the length in
1..=10: creation sets `num_wallets` from the validated list's length, and
no later operation modifies either field. -/
theorem num_wallets_matches_wallets (authority bump : Nat) (ops : List Op)
    (k : AuditHash) (att : Attestation)
    (hget : storeGet (runOps (initChain authority bump) ops).attestations k = some att) :
    att.num_wallets = att.wallets.length ∧
    1 ≤ att.wallets.length ∧ att.wallets.length ≤ MAX_WALLETS := by
  have hinv : StoreWalletInv (runOps (initChain authority bump) ops) :=
    runOps_preserves_wallet_inv ops (initChain authority bump)
      (fun k0 att0 h0 => by simp [initChain, storeGet] at h0)
  exact hinv k att hget

/-- C10 witness: after a create-then-revoke run, the stored record has
`num_wallets = 1` matching its single wallet. -/
theorem num_wallets_matches_wallets_witness :
    storeGet (runOps (initChain 1 0)
        [.create 1 5 0 .US .TaxCompliance 2024 [1] 99 [7],
         .update 1 6 [1] .Revoked]).attestations [1] = some attR ∧
    (attR.num_wallets = attR.wallets.length ∧
     1 ≤ attR.wallets.length ∧ attR.wallets.length ≤ MAX_WALLETS) :=
  ⟨by decide,
    num_wallets_matches_wallets 1 0
      [.create 1 5 0 .US .TaxCompliance 2024 [1] 99 [7],
       .update 1 6 [1] .Revoked] [1] attR (by decide)⟩

/-- C8 counterexample. Two successful `update_status` calls to `Revoked`, at
clock 5 and at clock 7, emit the identical `StatusUpdated` event (only key,
old status, new status) yet produce different post-mutation records
(`revoked_at` 5 versus 7): the emitted event does not carry enough
information to reconstruct the new record state — neither `revoked_at` nor
the wallet set nor any classification field is in it — refuting the claim
as stated. -/
theorem event_reconstruction_counterexample :
    update_status chainA stA.authority 5 [2] .Revoked =
      .ok (chainRevokedAt 5, [.StatusUpdated [2] .Active .Revoked]) ∧
    update_status chainA stA.authority 7 [2] .Revoked =
      .ok (chainRevokedAt 7, [.StatusUpdated [2] .Active .Revoked]) ∧
    chainRevokedAt 5 ≠ chainRevokedAt 7 ∧
    storeGet (chainRevokedAt 5).attestations [2] ≠
      storeGet (chainRevokedAt 7).attestations [2] := by
  decide

/-- C8 as amended. Every successful mutation (`initialize`,
`create_attestation`, `update_status`, `revoke_attestation`) emits exactly
one event and no event is emitted on any failure path; the
`AttestationCreated` event matches the stored record's wallet set,
classification fields and timestamps, and the `AttestationRevoked` event
matches its wallet set and revocation time, but the `StatusUpdated` event
carries only the record's address and the old and new statuses, so an
observer needs prior events or the store for the rest of the record. -/
theorem event_emission_discipline :
    (∀ (c : Chain) (s : Pubkey) (b : Nat) (r : Chain × List Event),
      initProgram c s b = .ok r → r.2 = [.ProgramInitialized s]) ∧
    (∀ (c : Chain) (op : Op) (r : Chain × List Event),
      applyOp c op = .ok r → r.2.length = 1) ∧
    (∀ (c : Chain) (op : Op) (err : TxError),
      applyOp c op = .error err → eventsOf (applyOp c op) = []) ∧
    (∀ (c : Chain) (s : Pubkey) (ck : Int) (b : Nat) (j : Jurisdiction)
       (t : AttestationType) (y : Nat) (h : AuditHash) (e : Int)
       (w : List Pubkey) (c1 : Chain) (evs : List Event),
      create_attestation c s ck b j t y h e w = .ok (c1, evs) →
      ∃ att, storeGet c1.attestations h = some att ∧
        evs = [.AttestationCreated h att.wallets att.jurisdiction
                 att.attestation_type att.tax_year att.audit_hash
                 att.issued_at att.expires_at]) ∧
    (∀ (c : Chain) (s : Pubkey) (ck : Int) (k : AuditHash) (c1 : Chain)
       (evs : List Event),
      revoke_attestation c s ck k = .ok (c1, evs) →
      ∃ att', storeGet c1.attestations k = some att' ∧
        evs = [.AttestationRevoked k att'.wallets att'.revoked_at]) ∧
    (∀ (c : Chain) (s : Pubkey) (ck : Int) (k : AuditHash)
       (n : AttestationStatus) (c1 : Chain) (evs : List Event) (att : Attestation),
      update_status c s ck k n = .ok (c1, evs) →
      storeGet c.attestations k = some att →
      evs = [.StatusUpdated k att.status n]) := by
  refine ⟨?_, ?_, ?_, ?_, ?_, ?_⟩
  · intro c s b r hok
    unfold initProgram at hok
    cases hc : c.state with
    | none => rw [hc] at hok; cases hok; rfl
    | some st => rw [hc] at hok; cases hok
  · intro c op r hok
    obtain ⟨c', evs⟩ := r
    cases op with
    | create s ck b j t y h e w =>
        obtain ⟨st, _, _, _, _, _, _, hevs⟩ :=
          create_attestation_ok_inv c s ck b j t y h e w c' evs hok
        simp [hevs]
    | update s ck k n =>
        obtain ⟨st, att, _, _, _, _, _, hevs⟩ :=
          update_status_ok_inv c s ck k n c' evs hok
        simp [hevs]
    | revoke s ck k =>
        obtain ⟨st, att, _, _, _, _, _, hevs⟩ :=
          revoke_attestation_ok_inv c s ck k c' evs hok
        simp [hevs]
  · intro c op err herr
    simp [eventsOf, herr]
  · intro c s ck b j t y h e w c1 evs hok
    obtain ⟨st, hst, hs, hfree, hw1, hw2, hc1, hevs⟩ :=
      create_attestation_ok_inv c s ck b j t y h e w c1 evs hok
    subst hc1
    exact ⟨createdAtt s ck b j t y h e w, by simp [storeGet], by simp [hevs, createdAtt]⟩
  · intro c s ck k c1 evs hok
    obtain ⟨st, att, hst, hs, hget, hact, hc1, hevs⟩ :=
      revoke_attestation_ok_inv c s ck k c1 evs hok
    subst hc1
    exact ⟨revokedAtt att ck,
      storeGet_storeSet_self _ _ _ (by simp [hget]),
      by simp [hevs, revokedAtt]⟩
  · intro c s ck k n c1 evs att hok hget
    obtain ⟨st, att0, hst, hs, hget0, hval, hc1, hevs⟩ :=
      update_status_ok_inv c s ck k n c1 evs hok
    rw [hget] at hget0
    cases hget0
    exact hevs

/-- C8 witness: a concrete successful `update_status` emits exactly the one
`StatusUpdated` event. -/
theorem event_emission_discipline_witness :
    applyOp chainA (.update 1 4 [2] .Expired) =
      .ok (chainExpired, [.StatusUpdated [2] .Active .Expired]) ∧
    ([Event.StatusUpdated [2] .Active .Expired]).length = 1 :=
  ⟨by decide,
    event_emission_discipline.2.1 chainA (.update 1 4 [2] .Expired)
      (chainExpired, [.StatusUpdated [2] .Active .Expired]) (by decide)⟩

end AuditSwarm
